import Mathlib

/-!
Verification of the retail ETL pipeline (extraction cleaning, star-schema
transformation, batch load, and data-quality scoring) against its
specification.  The Python sources are embedded shallowly: pandas
dataframes become `List` of row structures, column-wise operations become
row maps, SQL query results become association lists of numeric fields,
and exceptions become `Except`.  Machine floats carrying exact small
decimals are modelled by `ℚ`.
-/

namespace RetailETL

/-! ## Generic list machinery shared by several pipeline stages -/

/-- First-occurrence deduplication by a key function: the embedding of
pandas `drop_duplicates(subset=keys)` (default `keep='first'`).  The head
of the list is kept and every later row with the same key is removed. -/
def dedupBy {α κ : Type} [DecidableEq κ] (key : α → κ) : List α → List α
  | [] => []
  | x :: xs => x :: dedupBy key (xs.filter (fun y => decide (key y ≠ key x)))
termination_by l => l.length
decreasing_by
  exact Nat.lt_succ_of_le (List.length_filter_le _ _)

/-- Reference batch size of the loaders (`batch_size = 5000`). -/
def batchSize : ℕ := 5000

/-- Batch slicing loop `for i in range(0, total_rows, batch_size)`
with `df.iloc[i:batch_end]`: the dataframe cut into consecutive chunks
of at most `batchSize` rows. -/
def toBatches {α : Type} : List α → List (List α)
  | [] => []
  | x :: xs => ((x :: xs).take batchSize) :: toBatches ((x :: xs).drop batchSize)
termination_by l => l.length
decreasing_by
  simp only [List.length_drop, List.length_cons, batchSize]
  omega

/-! ## Staging Cleaner (`src/etl/extract/retail_extract.py`, `_clean_data` /
`extract_from_excel`) -/

/-- Raw Excel row after the column renaming (`Customer ID → CustomerID`,
`Invoice → InvoiceNo`, `Price → UnitPrice`).  Nullable columns are
`Option`; the invoice timestamp is a pair (calendar date, time of day)
so that `pd.to_datetime(...).dt.date` is the first projection. -/
structure RawRow where
  invoiceNo : String
  stockCode : Option String
  description : Option String
  quantity : Int
  invoiceDate : Option (Nat × Nat)
  unitPrice : Option ℚ
  customerID : Option Int
  country : Option String
deriving DecidableEq, Repr

/-- Python `str.startswith("C")` on the value rendered as a string: true
exactly when the first character is `C`.  (Defined over `String.data`
because the builtin `String.startsWith` does not reduce in the kernel.) -/
def startsWithC (s : String) : Bool :=
  match s.data with
  | [] => false
  | c :: _ => c = 'C'

/-- The cleaner's return detection (`retail_extract.py` lines 175-179):
`InvoiceNo.astype(str).str.startswith("C") | (Quantity < 0)`. -/
def cleanIsReturn (invoiceNo : String) (quantity : Int) : Bool :=
  startsWithC invoiceNo || decide (quantity < 0)

/-- Cleaned row: the critical fields are non-null, the flag columns and
derived measures are attached.  `totalAmount` is `none` when `UnitPrice`
is NaN (`quantity * NaN` is NaN in pandas). -/
structure CleanRow where
  invoiceNo : String
  stockCode : String
  description : Option String
  quantity : Int
  invoiceDate : Nat × Nat
  unitPrice : Option ℚ
  customerID : Int
  country : Option String
  price_flag : Bool
  quantity_flag : Bool
  is_return : Bool
  totalAmount : Option ℚ
deriving DecidableEq, Repr

/-- Row-wise part of `_clean_data`: `dropna(subset=["CustomerID",
"StockCode", "InvoiceDate"])` (rows with a null critical field yield
`none`), the price flag (`UnitPrice <= 0` or NaN), the suspicious
quantity flag (`Quantity > 1000`), the return flag, and
`TotalAmount = Quantity * UnitPrice`. -/
def cleanRowOf (r : RawRow) : Option CleanRow :=
  match r.customerID, r.stockCode, r.invoiceDate with
  | some cid, some sc, some d =>
    some { invoiceNo := r.invoiceNo
           stockCode := sc
           description := r.description
           quantity := r.quantity
           invoiceDate := d
           unitPrice := r.unitPrice
           customerID := cid
           country := r.country
           price_flag := (match r.unitPrice with
             | none => true
             | some p => decide (p ≤ 0))
           quantity_flag := decide (r.quantity > 1000)
           is_return := cleanIsReturn r.invoiceNo r.quantity
           totalAmount := r.unitPrice.map (fun p => (r.quantity : ℚ) * p) }
  | _, _, _ => none

/-- The cleaner's deduplication key `DEDUP_KEYS = ["InvoiceNo",
"StockCode", "InvoiceDate"]`. -/
def cleanKey (r : CleanRow) : String × String × (Nat × Nat) :=
  (r.invoiceNo, r.stockCode, r.invoiceDate)

/-- The cleaner's `df_work.drop_duplicates(subset=DEDUP_KEYS)`:
first-occurrence deduplication on (invoice, stock code, invoice date). -/
def cleanDedup (l : List CleanRow) : List CleanRow :=
  dedupBy cleanKey l

/-- Cleaning statistics dictionary of `_clean_data`. -/
structure CleanStats where
  null_drops : ℕ
  invalid_price_count : ℕ
  high_quantity_count : ℕ
  return_count : ℕ
  duplicates_removed : ℕ
deriving DecidableEq, Repr

/-- The function `_clean_data`: drop null critical fields, flag
prices/quantities, derive `is_return`, deduplicate keeping the first
occurrence, compute `TotalAmount`, and return the cleaned rows with the
stats record.  (The flag and measure columns are row-wise, so computing
them together with the null filter preserves the source's column-wise
order of effects; the counts are taken before deduplication exactly as in
the source.) -/
def clean_data (df : List RawRow) : List CleanRow × CleanStats :=
  let kept := df.filterMap cleanRowOf
  let deduped := cleanDedup kept
  (deduped,
    { null_drops := df.length - kept.length
      invalid_price_count := (kept.filter (fun r => r.price_flag)).length
      high_quantity_count := (kept.filter (fun r => r.quantity_flag)).length
      return_count := (kept.filter (fun r => r.is_return)).length
      duplicates_removed := kept.length - deduped.length })

/-- Python `round(x, 2)` (round half to even) on an exact rational. -/
def pyRound2 (q : ℚ) : ℚ :=
  let s := q * 100
  let f : ℤ := ⌊s⌋
  let r : ℚ := s - f
  let i : ℤ :=
    if r < 1/2 then f
    else if 1/2 < r then f + 1
    else if f % 2 = 0 then f else f + 1
  (i : ℚ) / 100

/-- Statistics record returned by `extract_from_excel` after
`stats.update(...)`. -/
structure ExtractStats where
  null_drops : ℕ
  invalid_price_count : ℕ
  high_quantity_count : ℕ
  return_count : ℕ
  duplicates_removed : ℕ
  initial_rows : ℕ
  final_rows : ℕ
  rows_dropped : ℕ
  drop_rate : ℚ
deriving DecidableEq, Repr

/-- The function `extract_from_excel` after the Excel read: clean the raw
rows, then update the stats with `initial_rows`, `final_rows`,
`rows_dropped` and `drop_rate = round((initial - final) / initial * 100,
2)`.  The division by `initial_count` raises `ZeroDivisionError` when the
raw dataframe is empty; the raise is modelled as `Except.error`. -/
def extract_from_excel (dfRaw : List RawRow) :
    Except String (List CleanRow × ExtractStats) :=
  let initial := dfRaw.length
  let cleaned := clean_data dfRaw
  if initial = 0 then
    Except.error ("ZeroDivisionError: division by zero")
  else
    Except.ok (cleaned.1,
      { null_drops := cleaned.2.null_drops
        invalid_price_count := cleaned.2.invalid_price_count
        high_quantity_count := cleaned.2.high_quantity_count
        return_count := cleaned.2.return_count
        duplicates_removed := cleaned.2.duplicates_removed
        initial_rows := initial
        final_rows := cleaned.1.length
        rows_dropped := initial - cleaned.1.length
        drop_rate := pyRound2 (((initial : ℚ) - cleaned.1.length) / initial * 100) })

/-! ## Staging table and the Fact Builder
(`load_to_staging` column mapping, `retail_transform.py`) -/

/-- Row of the staging table `raw_retail_data` as read back by
`load_staging_data` (critical fields non-null by the `WHERE` clause,
which mirrors the cleaner's `dropna`). -/
structure StagingRow where
  invoice : String
  stock_code : String
  description : Option String
  quantity : Int
  invoice_date : Nat × Nat
  price : Option ℚ
  customer_id : Int
  country : Option String
deriving DecidableEq, Repr

/-- The `load_to_staging` column mapping (`InvoiceNo → invoice`,
`StockCode → stock_code`, `UnitPrice → price`, ...) restricted to the
database columns: the flag columns, `TotalAmount` and `processed_at` are
not persisted to staging. -/
def load_to_staging_row (r : CleanRow) : StagingRow :=
  { invoice := r.invoiceNo
    stock_code := r.stockCode
    description := r.description
    quantity := r.quantity
    invoice_date := r.invoiceDate
    price := r.unitPrice
    customer_id := r.customerID
    country := r.country }

/-- The `dimension_keys` dictionary handed to `transform_fact_sales`:
natural key → surrogate key mappings produced by the dimension loads
(`pandas.Series.map` of a missing key gives NaN, hence `Option`). -/
structure DimensionKeys where
  products : String → Option ℕ
  customers : Int → Option ℕ
  countries : String → Option ℕ
  time : Nat → Option ℕ

/-- Fact row as assembled by `transform_fact_sales` before load:
unresolved dimension keys are NaN (`none`). -/
structure FactRow where
  invoice_no : String
  product_key : Option ℕ
  customer_key : Option ℕ
  time_key : Option ℕ
  country_key : Option ℕ
  quantity : Int
  unit_price : Option ℚ
  total_amount : Option ℚ
  is_return : Bool
deriving DecidableEq, Repr

/-- The fact builder's return detection (`retail_transform.py` lines
236-240): `invoice.astype(str).str.startswith('C') | (quantity < 0)`. -/
def factIsReturn (invoice : String) (quantity : Int) : Bool :=
  startsWithC invoice || decide (quantity < 0)

/-- Row-wise part of `transform_fact_sales`: dimension-key lookups
(`time` keyed by the calendar date of the invoice timestamp; a null
country maps to NaN), the measures `total_amount = quantity * price`
and `is_return`, and the column selection/renaming. -/
def mkFactRow (keys : DimensionKeys) (r : StagingRow) : FactRow :=
  { invoice_no := r.invoice
    product_key := keys.products r.stock_code
    customer_key := keys.customers r.customer_id
    time_key := keys.time r.invoice_date.1
    country_key := r.country.bind keys.countries
    quantity := r.quantity
    unit_price := r.price
    total_amount := r.price.map (fun p => (r.quantity : ℚ) * p)
    is_return := factIsReturn r.invoice r.quantity }

/-- The function `transform_fact_sales`: build the fact rows, drop rows
with a missing key via `dropna(subset=['product_key', 'customer_key',
'time_key'])`, then deduplicate on `['invoice_no', 'product_key',
'time_key']` keeping the first occurrence. -/
def transform_fact_sales (keys : DimensionKeys) (df : List StagingRow) :
    List FactRow :=
  let mapped := df.map (mkFactRow keys)
  let cleaned := mapped.filter
    (fun r => r.product_key.isSome && r.customer_key.isSome && r.time_key.isSome)
  dedupBy (fun r => (r.invoice_no, r.product_key, r.time_key)) cleaned

/-! ## Product dimension (`transform_product_dimension`) -/

/-- Number of occurrences of a value in a series. -/
def countOcc (xs : List String) (v : String) : ℕ :=
  (xs.filter (fun x => decide (x = v))).length

/-- Maximal occurrence count over a series. -/
def maxCount (xs : List String) : ℕ :=
  (xs.map (countOcc xs)).foldr max 0

/-- Distinct values of a series in first-seen order. -/
def firstSeen (xs : List String) : List String :=
  dedupBy id xs

/-- Set of modes of a series: the distinct values attaining the maximal
count (pandas `Series.mode()` up to ordering; pandas returns it sorted
ascending). -/
def modeList (xs : List String) : List String :=
  (firstSeen xs).filter (fun v => decide (countOcc xs v = maxCount xs))

/-- Python string `<`: lexicographic comparison of the code points. -/
def descLt (a b : String) : Bool :=
  decide (a.data < b.data)

/-- Least element of a nonempty collection under `descLt` (ties keep the
accumulator). -/
def leastDesc : String → List String → String
  | v, [] => v
  | v, w :: ws => leastDesc (if descLt w v then w else v) ws

/-- The aggregation `x.mode().iloc[0]`: pandas `mode()` lists the modes
sorted ascending, so `.iloc[0]` is the least mode under the string
order; `none` when the series has no non-null value (the mode of an
all-NaN series is empty). -/
def modeFirst (xs : List String) : Option String :=
  match modeList xs with
  | [] => none
  | v :: vs => some (leastDesc v vs)

/-- Per-stock-code description aggregation of
`transform_product_dimension` (lines 169-177):
`x.mode().iloc[0] if not x.mode().empty else x.iloc[0]` where `x` is the
description series of the group (mode drops NaN; the fallback is the
first observed value, possibly NaN). -/
def product_description (descs : List (Option String)) : Option String :=
  match modeFirst (descs.filterMap id) with
  | some d => some d
  | none => descs.headD none

/-- Description series of the rows of one stock code, in input order
(pandas `groupby` preserves the within-group row order). -/
def group_descriptions (df : List StagingRow) (code : String) :
    List (Option String) :=
  (df.filter (fun r => decide (r.stock_code = code))).map (fun r => r.description)

/-- Distinct stock codes of the staging data.  (`groupby` emits one
group per distinct code; its key ordering is irrelevant to the per-code
content, so first-seen order is used here.) -/
def stock_codes (df : List StagingRow) : List String :=
  firstSeen (df.map (fun r => r.stock_code))

/-- The function `transform_product_dimension`: one row per distinct
stock code with the aggregated description. -/
def transform_product_dimension (df : List StagingRow) :
    List (String × Option String) :=
  (stock_codes df).map (fun c => (c, product_description (group_descriptions df c)))

/-- Description choice as worded by the spec: the most frequently
occurring description, with ties broken by first-seen order (written
from the spec sentence, to be compared with `product_description`). -/
def spec_product_description (descs : List (Option String)) : Option String :=
  let nn := descs.filterMap id
  match (firstSeen nn).find? (fun v => decide (countOcc nn v = maxCount nn)) with
  | some d => some d
  | none => descs.headD none

/-! ## Fact load (`load_fact`) -/

/-- The `if_exists` mode handed to `load_fact`. -/
inductive IfExists
  | replace
  | append
deriving DecidableEq, Repr

/-- The loader `load_fact` (`retail_transform.py` lines 371-399) acting
on the warehouse fact table contents: when `if_exists == 'replace'`
**and** `total_rows > 0` the table is truncated, then the dataframe is
appended in batches of `batch_size = 5000`. -/
def load_fact (table : List FactRow) (df : List FactRow)
    (ifExists : IfExists) : List FactRow :=
  let cleared :=
    if ifExists = IfExists.replace ∧ 0 < df.length then ([] : List FactRow)
    else table
  (toBatches df).foldl (fun t b => t ++ b) cleared

/-! ## Anomaly Scorer (`quality_monitoring.py`) -/

/-- Insertion into a sorted list of rationals (ascending). -/
def sortedInsert (x : ℚ) : List ℚ → List ℚ
  | [] => [x]
  | y :: ys => if x ≤ y then x :: y :: ys else y :: sortedInsert x ys

/-- Ascending sort of a series of rationals. -/
def sortRats (xs : List ℚ) : List ℚ :=
  xs.foldr sortedInsert []

/-- Element of a series at an index, with a default past the end. -/
def nth0 (d : ℚ) : List ℚ → ℕ → ℚ
  | [], _ => d
  | x :: _, 0 => x
  | _ :: xs, n + 1 => nth0 d xs n

/-- pandas `Series.quantile(q)` with the default linear interpolation:
the value at fractional position `q * (n - 1)` of the ascending sort. -/
def quantile (xs : List ℚ) (q : ℚ) : ℚ :=
  let s := sortRats xs
  let n := s.length
  let h : ℚ := q * ((n : ℚ) - 1)
  let lo : ℕ := (⌊h⌋).toNat
  let base := nth0 0 s lo
  let nxt := nth0 base s (lo + 1)
  base + (h - (⌊h⌋ : ℚ)) * (nxt - base)

/-- Interquartile range `iqr = q75 - q25` of the daily sales series
(`check_daily_sales_range` lines 131-137). -/
def iqrOf (sales : List ℚ) : ℚ :=
  quantile sales (3/4) - quantile sales (1/4)

/-- Lower outlier boundary `lower_bound = q25 - 1.5 * iqr`. -/
def lower_bound (sales : List ℚ) : ℚ :=
  quantile sales (1/4) - 3/2 * iqrOf sales

/-- Upper outlier boundary `upper_bound = q75 + 1.5 * iqr`. -/
def upper_bound (sales : List ℚ) : ℚ :=
  quantile sales (3/4) + 3/2 * iqrOf sales

/-- Outlier flag `is_outlier`: below the lower bound or above the upper
bound. -/
def is_outlier (sales : List ℚ) (v : ℚ) : Bool :=
  decide (v < lower_bound sales) || decide (v > upper_bound sales)

/-- The `outlier_type` labels. -/
inductive OutlierType
  | Low
  | High
  | Normal
deriving DecidableEq, Repr

/-- Tagging column `outlier_type`: `'Low' if v < lower else 'High' if
v > upper else 'Normal'` (lines 144-147). -/
def outlier_type (sales : List ℚ) (v : ℚ) : OutlierType :=
  if v < lower_bound sales then OutlierType.Low
  else if v > upper_bound sales then OutlierType.High
  else OutlierType.Normal

/-- Scoring column `quality_score`: `85 if is_outlier else 100` (lines
150-151). -/
def sales_quality_score (sales : List ℚ) (v : ℚ) : ℕ :=
  if is_outlier sales v then 85 else 100

/-- The check `check_daily_sales_range` restricted to the columns the
claims are about: each day of the per-date net-sales series (in date
order) is tagged and scored against the IQR bounds of the full series.
(The `z_score` column needs a real square root and is outside this
model.) -/
def check_daily_sales_range (sales : List ℚ) : List (ℚ × OutlierType × ℕ) :=
  sales.map (fun v => (v, outlier_type sales v, sales_quality_score sales v))

/-- SQL `ROUND(x, 2)` (round half away from zero; the rates it is
applied to are non-negative, where this is `⌊x + 1/2⌋`). -/
def sqlRound2 (q : ℚ) : ℚ :=
  ((round (q * 100) : ℤ) : ℚ) / 100

/-- Per-date missing-customer rate computed by the SQL of
`check_missing_customer_rate`:
`ROUND((COUNT(*) - COUNT(customer_key)) * 100.0 / COUNT(*), 2)`. -/
def missing_customer_rate (missing total : ℕ) : ℚ :=
  sqlRound2 ((missing : ℚ) * 100 / total)

/-- Threshold `threshold = 5.0` of `check_missing_customer_rate`. -/
def missingThreshold : ℚ := 5

/-- Status column `quality_status` (lines 186-189): `'Good' if
x <= threshold else 'Warning' if x <= threshold * 2 else 'Critical'`. -/
def missing_status (x : ℚ) : String :=
  if x ≤ missingThreshold then ("Good")
  else if x ≤ missingThreshold * 2 then ("Warning")
  else ("Critical")

/-- Scoring column `quality_score` (lines 191-193): `100 if
x <= threshold else max(50, 100 - (x - threshold) * 10)`. -/
def missing_score (x : ℚ) : ℚ :=
  if x ≤ missingThreshold then 100
  else max 50 (100 - (x - missingThreshold) * 10)

/-! ## Quality Rule Engine (`data_quality.py`) -/

/-- Quality check definition (name, description, threshold, critical
flag; the SQL query itself is executed by the warehouse database and is
abstracted as an execution function below). -/
structure Check where
  name : String
  description : String
  threshold : ℚ
  critical : Bool
deriving DecidableEq, Repr

/-- Fetched SQL result row: named numeric fields. -/
abbrev QueryRow := List (String × ℚ)

/-- Dictionary access `result.get(key, default)`. -/
def rowGetD (row : QueryRow) (k : String) (d : ℚ) : ℚ :=
  (row.lookup k).getD d

/-- The dispatcher `_evaluate_check_result` (lines 202-267): dispatch on
the check name, compute the documented ratio and compare against the
threshold; an unknown name fails. -/
def evaluate_check_result (check : Check) (result : QueryRow) : Bool :=
  if check.name = "null_critical_fields" then
    let total := rowGetD result ("total_rows") 0
    if total = 0 then false
    else
      decide ((rowGetD result ("null_customer_id") 0 +
        rowGetD result ("null_stock_code") 0 +
        rowGetD result ("null_invoice_date") 0) / (total * 3) ≤ check.threshold)
  else if check.name = "duplicate_records" then
    let total := rowGetD result ("total_records") 0
    if total = 0 then true
    else
      decide ((total - rowGetD result ("unique_combinations") 0) / total ≤
        check.threshold)
  else if check.name = "data_range_validation" then
    let total := rowGetD result ("total_rows") 0
    if total = 0 then false
    else
      decide ((rowGetD result ("invalid_price") 0 +
        rowGetD result ("suspicious_quantity") 0) / total ≤ check.threshold)
  else if check.name = "referential_integrity" then
    decide (rowGetD result ("orphaned_products") 0 = 0) &&
    decide (rowGetD result ("orphaned_customers") 0 = 0) &&
    decide (rowGetD result ("orphaned_times") 0 = 0)
  else if check.name = "business_logic" then
    decide (rowGetD result ("calculation_errors") 0 = 0) &&
    decide (rowGetD result ("negative_non_returns") 0 = 0)
  else if check.name = "data_freshness" then
    decide (rowGetD result ("hours_since_last_load") 999 ≤ check.threshold)
  else if check.name = "row_count_validation" then
    let raw := rowGetD result ("raw_count") 0
    if raw = 0 then false
    else decide (rowGetD result ("fact_count") 0 / raw ≥ check.threshold)
  else false

/-- Check result dictionary: the success branch carries the fetched row
and the threshold, the exception branch carries the error message
instead. -/
structure CheckResult where
  check_name : String
  description : String
  results : QueryRow
  passed : Bool
  critical : Bool
  threshold : Option ℚ
  error : Option String
deriving DecidableEq, Repr

/-- The runner `run_quality_check` (lines 155-200): execute the check's
query via the warehouse (`execQ`, `Except.error` when the query raises)
and evaluate; an exception is recorded as a failed result carrying the
check name, its critical flag and the error message. -/
def run_quality_check (execQ : Check → Except String QueryRow)
    (check : Check) : CheckResult :=
  match execQ check with
  | Except.ok row =>
    { check_name := check.name
      description := check.description
      results := row
      passed := evaluate_check_result check row
      critical := check.critical
      threshold := some check.threshold
      error := none }
  | Except.error e =>
    { check_name := check.name
      description := check.description
      results := []
      passed := false
      critical := check.critical
      threshold := none
      error := some e }

/-- Summary block of the quality report. -/
structure QualitySummary where
  total_checks : ℕ
  passed_checks : ℕ
  failed_checks : ℕ
  critical_failures : ℕ
deriving DecidableEq, Repr

/-- Quality report of `run_all_checks`. -/
structure QualityReport where
  check_categories : List (String × List CheckResult)
  summary : QualitySummary
  overall_status : String
deriving DecidableEq, Repr

/-- The `row_count_validation` check of `_load_quality_rules`
(threshold 0.95, critical). -/
def row_count_check : Check :=
  { name := "row_count_validation"
    description := "Validate expected row counts"
    threshold := 95/100
    critical := true }

/-- The `data_freshness` check of `_load_quality_rules` (threshold 48
hours, non-critical). -/
def data_freshness_check : Check :=
  { name := "data_freshness"
    description := "Check data freshness"
    threshold := 48
    critical := false }

/-- The configuration `_load_quality_rules`: the fixed category → checks
list (name, description, threshold, critical flag of every check). -/
def quality_rules : List (String × List Check) :=
  [("raw_data_checks",
    [{ name := "null_critical_fields"
       description := "Check for nulls in critical fields"
       threshold := 5/100, critical := true },
     { name := "duplicate_records"
       description := "Check for duplicate records"
       threshold := 1/100, critical := false },
     { name := "data_range_validation"
       description := "Validate data ranges"
       threshold := 1/10, critical := false }]),
   ("warehouse_checks",
    [{ name := "referential_integrity"
       description := "Check referential integrity"
       threshold := 0, critical := true },
     { name := "business_logic"
       description := "Validate business calculations"
       threshold := 0, critical := true }]),
   ("performance_checks", [data_freshness_check, row_count_check])]

/-- The batch runner `run_all_checks` (lines 269-318): run every check
of every category, count passed/failed/critical failures, and derive the
overall status (`CRITICAL_FAILURE` over `WARNING` over `PASS`). -/
def run_all_checks (execQ : Check → Except String QueryRow)
    (rules : List (String × List Check)) : QualityReport :=
  let cats := rules.map (fun p => (p.1, p.2.map (run_quality_check execQ)))
  let allResults := (cats.map (fun p => p.2)).flatten
  let summary : QualitySummary :=
    { total_checks := allResults.length
      passed_checks := (allResults.filter (fun r => r.passed)).length
      failed_checks := (allResults.filter (fun r => !r.passed)).length
      critical_failures :=
        (allResults.filter (fun r => !r.passed && r.critical)).length }
  { check_categories := cats
    summary := summary
    overall_status :=
      if summary.critical_failures > 0 then ("CRITICAL_FAILURE")
      else if summary.failed_checks > 0 then ("WARNING")
      else ("PASS") }

/-! ## Concrete example inputs used by counterexamples and witnesses -/

/-- Staging row of a United Kingdom sale, used as a concrete input. -/
def exStaging (code : String) (d : Option String) : StagingRow :=
  { invoice := "536365"
    stock_code := code
    description := d
    quantity := 6
    invoice_date := (20101201, 0)
    price := some (51/20)
    customer_id := 17850
    country := some ("United Kingdom") }

/-- Key registry in which product, customer and time resolve but the
country lookup fails. -/
def exKeysNoCountry : DimensionKeys :=
  { products := fun _ => some 1
    customers := fun _ => some 2
    countries := fun _ => none
    time := fun _ => some 3 }

/-- Key registry in which all four lookups resolve. -/
def exKeysAll : DimensionKeys :=
  { products := fun _ => some 1
    customers := fun _ => some 2
    countries := fun _ => some 4
    time := fun _ => some 3 }

/-- Raw row with all critical fields present (price left NaN so that it
is flagged, not dropped). -/
def exRaw : RawRow :=
  { invoiceNo := "C536379"
    stockCode := some ("D")
    description := some ("Discount")
    quantity := -1
    invoiceDate := some (20101201, 927)
    unitPrice := none
    customerID := some 14527
    country := some ("United Kingdom") }

/-- The cleaned image of `exRaw` under `cleanRowOf`. -/
def exClean : CleanRow :=
  { invoiceNo := "C536379"
    stockCode := "D"
    description := some ("Discount")
    quantity := -1
    invoiceDate := (20101201, 927)
    unitPrice := none
    customerID := 14527
    country := some ("United Kingdom")
    price_flag := true
    quantity_flag := false
    is_return := true
    totalAmount := none }

/-- Concrete fact row (a resolved sale), used for the load model. -/
def exFact : FactRow :=
  { invoice_no := "536365"
    product_key := some 1
    customer_key := some 2
    time_key := some 3
    country_key := some 4
    quantity := 6
    unit_price := some (51/20)
    total_amount := some (153/10)
    is_return := false }

/-- Second concrete fact row, distinct from `exFact`. -/
def exFact2 : FactRow :=
  { invoice_no := "536366"
    product_key := some 1
    customer_key := some 2
    time_key := some 3
    country_key := some 4
    quantity := 2
    unit_price := some 1
    total_amount := some 2
    is_return := false }

/-- Query execution that answers every check with the row-count result
`raw_count = 1000, fact_count = 940`. -/
def exExec940 : Check → Except String QueryRow :=
  fun _ => Except.ok [("raw_count", 1000), ("fact_count", 940)]

/-- Query execution in which every query raises. -/
def exExecFail : Check → Except String QueryRow :=
  fun _ => Except.error ("connection refused")

/-! ## General lemmas about the shared list machinery -/

theorem dedupBy_sublist {α κ : Type} [DecidableEq κ] (key : α → κ) (l : List α) :
    (dedupBy key l).Sublist l := by
  induction l using dedupBy.induct key with
  | case1 => simp [dedupBy]
  | case2 x xs ih =>
    rw [dedupBy]
    exact (ih.trans (List.filter_sublist _)).cons₂ x

theorem mem_of_mem_dedupBy {α κ : Type} [DecidableEq κ] {key : α → κ} {l : List α}
    {x : α} (h : x ∈ dedupBy key l) : x ∈ l :=
  (dedupBy_sublist key l).subset h

theorem key_ne_of_mem_dedupBy_filter {α κ : Type} [DecidableEq κ] {key : α → κ}
    {l : List α} {k : κ} {x : α}
    (h : x ∈ dedupBy key (l.filter (fun y => decide (key y ≠ k)))) : key x ≠ k := by
  have hx := mem_of_mem_dedupBy h
  simpa using (List.of_mem_filter hx)

theorem dedupBy_keys_nodup {α κ : Type} [DecidableEq κ] (key : α → κ) (l : List α) :
    ((dedupBy key l).map key).Nodup := by
  induction l using dedupBy.induct key with
  | case1 => simp [dedupBy]
  | case2 x xs ih =>
    rw [dedupBy]
    refine List.nodup_cons.2 ⟨?_, ih⟩
    intro hmem
    rcases List.mem_map.1 hmem with ⟨y, hy, hkey⟩
    exact key_ne_of_mem_dedupBy_filter hy hkey

theorem find?_filter_of_imp {α : Type} (p q : α → Bool) (l : List α)
    (h : ∀ y, p y = true → q y = true) :
    (l.filter q).find? p = l.find? p := by
  induction l with
  | nil => rfl
  | cons x xs ih =>
    rw [List.filter_cons]
    by_cases hq : q x = true
    · rw [if_pos hq]
      by_cases hp : p x = true
      · rw [List.find?_cons_of_pos _ hp, List.find?_cons_of_pos _ hp]
      · rw [List.find?_cons_of_neg _ hp, List.find?_cons_of_neg _ hp, ih]
    · rw [if_neg hq]
      have hp : ¬ p x = true := fun hpx => hq (h x hpx)
      rw [List.find?_cons_of_neg _ hp, ih]

theorem dedupBy_find?_key {α κ : Type} [DecidableEq κ] (key : α → κ) (l : List α)
    (k : κ) :
    (dedupBy key l).find? (fun y => decide (key y = k)) =
      l.find? (fun y => decide (key y = k)) := by
  induction l using dedupBy.induct key with
  | case1 => simp [dedupBy]
  | case2 x xs ih =>
    rw [dedupBy]
    by_cases hx : key x = k
    · rw [List.find?_cons_of_pos _ (by simpa using hx),
        List.find?_cons_of_pos _ (by simpa using hx)]
    · rw [List.find?_cons_of_neg _ (by simpa using hx),
        List.find?_cons_of_neg _ (by simpa using hx), ih,
        find?_filter_of_imp _ _ _ ?_]
      intro y hy
      have hyk : key y = k := of_decide_eq_true hy
      exact decide_eq_true (by rw [hyk]; exact fun hcon => hx hcon.symm)

theorem dedupBy_filter_self {α κ : Type} [DecidableEq κ] (key : α → κ) (l : List α)
    (k : κ) (hall : ∀ x ∈ l, key x ≠ k) :
    l.filter (fun y => decide (key y ≠ k)) = l := by
  apply List.filter_eq_self.2
  intro x hx
  exact decide_eq_true (hall x hx)

theorem dedupBy_idem {α κ : Type} [DecidableEq κ] (key : α → κ) (l : List α) :
    dedupBy key (dedupBy key l) = dedupBy key l := by
  induction l using dedupBy.induct key with
  | case1 => simp [dedupBy]
  | case2 x xs ih =>
    have hstep : dedupBy key (x :: xs) =
        x :: dedupBy key (xs.filter (fun y => decide (key y ≠ key x))) := by
      rw [dedupBy]
    rw [hstep, dedupBy]
    congr 1
    rw [dedupBy_filter_self key _ (key x)
      (fun y hy => key_ne_of_mem_dedupBy_filter hy)]
    exact ih

theorem mem_dedupBy_id (l : List String) {x : String} (h : x ∈ l) :
    x ∈ dedupBy id l := by
  induction l using dedupBy.induct (id : String → String) with
  | case1 => cases h
  | case2 y ys ih =>
    rw [dedupBy]
    rcases List.mem_cons.1 h with rfl | hmem
    · exact List.mem_cons_self _ _
    · by_cases hxy : x = y
      · exact hxy ▸ List.mem_cons_self _ _
      · exact List.mem_cons_of_mem _
          (ih (List.mem_filter.2 ⟨hmem, decide_eq_true (by simpa using hxy)⟩))

theorem toBatches_foldl_append {α : Type} (l : List α) : ∀ init : List α,
    (toBatches l).foldl (fun t b => t ++ b) init = init ++ l := by
  induction l using toBatches.induct with
  | case1 => intro init; simp [toBatches]
  | case2 x xs ih =>
    intro init
    rw [toBatches, List.foldl_cons, ih, List.append_assoc, List.take_append_drop]

/-! ## C1: key resolution in the fact builder -/

/-- C1 (counterexample): the claim says a staging row is dropped when
**any of the four** dimension-key lookups fails; but on a key registry
in which only the country lookup fails, `transform_fact_sales` retains
the row, with a null `country_key` — the `dropna` subset covers only
`product_key`, `customer_key` and `time_key`. -/
theorem C1_counterexample :
    (transform_fact_sales exKeysNoCountry [exStaging ("85123A") (some ("WHITE HEART"))]).map
      (fun r => r.country_key) = [none] := by
  simp [transform_fact_sales, dedupBy, mkFactRow, exKeysNoCountry, exStaging,
    factIsReturn, startsWithC]

/-- C1 (amended): every fact row retained by `transform_fact_sales` has
its product, customer and time keys resolved (rows failing any of these
three lookups are dropped before load); the country key is not part of
the `dropna` subset and may remain null. -/
theorem C1_retained_rows_have_resolved_keys (keys : DimensionKeys)
    (df : List StagingRow) (r : FactRow)
    (h : r ∈ transform_fact_sales keys df) :
    r.product_key.isSome = true ∧ r.customer_key.isSome = true ∧
      r.time_key.isSome = true := by
  have hf : r ∈ (df.map (mkFactRow keys)).filter
      (fun r => r.product_key.isSome && r.customer_key.isSome && r.time_key.isSome) :=
    mem_of_mem_dedupBy h
  have hp := List.of_mem_filter hf
  simp only [Bool.and_eq_true] at hp
  exact ⟨hp.1.1, hp.1.2, hp.2⟩

/-- C1 (witness): the amended theorem applied to a concrete retained
row under a fully resolving key registry. -/
theorem C1_witness :
    (mkFactRow exKeysAll (exStaging ("85123A") (some ("WHITE HEART")))).product_key.isSome = true ∧
      (mkFactRow exKeysAll (exStaging ("85123A") (some ("WHITE HEART")))).customer_key.isSome = true ∧
      (mkFactRow exKeysAll (exStaging ("85123A") (some ("WHITE HEART")))).time_key.isSome = true :=
  C1_retained_rows_have_resolved_keys exKeysAll [exStaging ("85123A") (some ("WHITE HEART"))] _
    (by simp [transform_fact_sales, dedupBy, mkFactRow, exKeysAll, exStaging,
      factIsReturn, startsWithC])

/-! ## C3: cleaner deduplication keeps first occurrences and is
idempotent -/

/-- C3: the staging cleaner's deduplication on (invoice, stock_code,
invoice_date) preserves the input order (sublist), keeps for every key
exactly the first row carrying it, leaves no duplicate keys, and is
idempotent — a second application removes `0` further rows. -/
theorem C3_clean_dedup_first_occurrence_idempotent (l : List CleanRow) :
    (cleanDedup l).Sublist l ∧
    (∀ k, (cleanDedup l).find? (fun r => decide (cleanKey r = k)) =
      l.find? (fun r => decide (cleanKey r = k))) ∧
    ((cleanDedup l).map cleanKey).Nodup ∧
    cleanDedup (cleanDedup l) = cleanDedup l ∧
    (cleanDedup l).length - (cleanDedup (cleanDedup l)).length = 0 := by
  refine ⟨dedupBy_sublist cleanKey l, fun k => dedupBy_find?_key cleanKey l k,
    dedupBy_keys_nodup cleanKey l, dedupBy_idem cleanKey l, ?_⟩
  rw [cleanDedup, cleanDedup, dedupBy_idem cleanKey l]
  omega

/-- C3 (witness): the theorem instantiated at a concrete two-row
staging list with equal dedup keys. -/
theorem C3_witness :
    (cleanDedup [exClean, exClean]).Sublist [exClean, exClean] ∧
    (∀ k, (cleanDedup [exClean, exClean]).find? (fun r => decide (cleanKey r = k)) =
      [exClean, exClean].find? (fun r => decide (cleanKey r = k))) ∧
    ((cleanDedup [exClean, exClean]).map cleanKey).Nodup ∧
    cleanDedup (cleanDedup [exClean, exClean]) = cleanDedup [exClean, exClean] ∧
    (cleanDedup [exClean, exClean]).length -
      (cleanDedup (cleanDedup [exClean, exClean])).length = 0 :=
  C3_clean_dedup_first_occurrence_idempotent [exClean, exClean]

/-! ## C9: fact load replace semantics -/

/-- C9 (counterexample): the claim says replace-mode `load_fact` leaves
the fact table equal to the loaded dataset *including an empty dataset*;
but the truncate is guarded by `total_rows > 0`, so an empty replace
load leaves the pre-load contents in place. -/
theorem C9_counterexample :
    load_fact [exFact] [] IfExists.replace = [exFact] ∧
      ([exFact] : List FactRow) ≠ [] := by
  constructor
  · simp [load_fact, toBatches]
  · simp

/-- C9 (amended): for every **non-empty** fact dataset, replace-mode
`load_fact` truncates and then appends all batches, leaving the table
holding exactly the dataset's rows; for an empty dataset the table is
left unchanged (the truncate is skipped). -/
theorem C9_replace_load (table df : List FactRow) (h : df ≠ []) :
    load_fact table df IfExists.replace = df ∧
      load_fact table [] IfExists.replace = table := by
  constructor
  · have hlen : 0 < df.length := List.length_pos.2 h
    rw [load_fact]
    simp only [hlen, and_true, if_pos rfl]
    simpa using toBatches_foldl_append df []
  · simp [load_fact, toBatches]

/-- C9 (witness): the amended theorem at a concrete one-row dataset over
a non-trivially populated table. -/
theorem C9_witness :
    load_fact [exFact] [exFact2] IfExists.replace = [exFact2] ∧
      load_fact [exFact] [] IfExists.replace = [exFact] :=
  C9_replace_load [exFact] [exFact2] (by simp)

/-! ## C2: `is_return` agrees between the cleaner and the fact builder -/

/-- C2: for every row the staging cleaner accepts, the fact builder's
`is_return` (computed on the staged image of the row) equals the
cleaner's `is_return` flag, and both are true exactly when the invoice
identifier rendered as a string starts with `C` or the quantity is
strictly negative (inclusive or). -/
theorem C2_is_return_consistent (keys : DimensionKeys) (raw : RawRow)
    (c : CleanRow) (h : cleanRowOf raw = some c) :
    (mkFactRow keys (load_to_staging_row c)).is_return = c.is_return ∧
      (c.is_return = true ↔ startsWithC c.invoiceNo = true ∨ c.quantity < 0) := by
  rcases raw with ⟨inv, sc, d, q, idate, up, cid, co⟩
  cases cid with
  | none => simp [cleanRowOf] at h
  | some cid =>
    cases sc with
    | none => simp [cleanRowOf] at h
    | some sc =>
      cases idate with
      | none => simp [cleanRowOf] at h
      | some idate =>
        rw [cleanRowOf] at h
        injection h with h
        subst h
        constructor
        · simp [mkFactRow, load_to_staging_row, factIsReturn, cleanIsReturn]
        · simp [cleanIsReturn, Bool.or_eq_true, decide_eq_true_eq]

/-- C2 (witness): the theorem at a concrete credit-note row. -/
theorem C2_witness :
    (mkFactRow exKeysAll (load_to_staging_row exClean)).is_return = exClean.is_return ∧
      (exClean.is_return = true ↔
        startsWithC exClean.invoiceNo = true ∨ exClean.quantity < 0) :=
  C2_is_return_consistent exKeysAll exRaw exClean (by rfl)

/-! ## C10: the `drop_rate` division -/

/-- C10: on an empty raw dataframe `extract_from_excel` raises an
uncaught `ZeroDivisionError` while computing `drop_rate` instead of
returning a (dataframe, stats) pair; on any raw dataframe with at least
one row it returns the cleaned rows together with a stats record whose
`drop_rate` is the dropped-row fraction times 100, rounded to two
decimals. -/
theorem C10_drop_rate_zero_division (df : List RawRow) (h : df ≠ []) :
    extract_from_excel [] = Except.error ("ZeroDivisionError: division by zero") ∧
    ∃ stats : ExtractStats,
      extract_from_excel df = Except.ok ((clean_data df).1, stats) ∧
      stats.drop_rate =
        pyRound2 (((df.length : ℚ) - (clean_data df).1.length) / df.length * 100) := by
  refine ⟨by simp [extract_from_excel], ?_⟩
  have hlen : ¬ df.length = 0 := by simpa using h
  exact ⟨{ null_drops := (clean_data df).2.null_drops
           invalid_price_count := (clean_data df).2.invalid_price_count
           high_quantity_count := (clean_data df).2.high_quantity_count
           return_count := (clean_data df).2.return_count
           duplicates_removed := (clean_data df).2.duplicates_removed
           initial_rows := df.length
           final_rows := (clean_data df).1.length
           rows_dropped := df.length - (clean_data df).1.length
           drop_rate :=
             pyRound2 (((df.length : ℚ) - (clean_data df).1.length) / df.length * 100) },
    by simp only [extract_from_excel, if_neg hlen], rfl⟩

/-- C10 (witness): the theorem at a concrete one-row raw dataframe. -/
theorem C10_witness :
    extract_from_excel [] = Except.error ("ZeroDivisionError: division by zero") ∧
    ∃ stats : ExtractStats,
      extract_from_excel [exRaw] = Except.ok ((clean_data [exRaw]).1, stats) ∧
      stats.drop_rate =
        pyRound2 ((([exRaw].length : ℚ) - (clean_data [exRaw]).1.length) /
          [exRaw].length * 100) :=
  C10_drop_rate_zero_division [exRaw] (by simp)

/-! ## C4: product-dimension description aggregation -/

theorem leastDesc_mem (v : String) (ws : List String) :
    leastDesc v ws ∈ v :: ws := by
  induction ws generalizing v with
  | nil => simp [leastDesc]
  | cons w ws ih =>
    rw [leastDesc]
    rcases List.mem_cons.1 (ih (if descLt w v then w else v)) with h1 | h1
    · rw [h1]
      by_cases h : descLt w v = true
      · simp [h]
      · simp [h]
    · exact List.mem_cons_of_mem _ (List.mem_cons_of_mem _ h1)

theorem leastDesc_le (v : String) (ws : List String) :
    ∀ x ∈ v :: ws, (leastDesc v ws).data ≤ x.data := by
  induction ws generalizing v with
  | nil =>
    intro x hx
    rw [List.mem_singleton.1 hx, leastDesc]
  | cons w ws ih =>
    intro x hx
    rw [leastDesc]
    have hle_v : (if descLt w v then w else v).data ≤ v.data := by
      by_cases h : descLt w v = true
      · rw [if_pos h]
        exact le_of_lt (of_decide_eq_true h)
      · rw [if_neg h]
    have hle_w : (if descLt w v then w else v).data ≤ w.data := by
      by_cases h : descLt w v = true
      · rw [if_pos h]
      · rw [if_neg h]
        exact le_of_not_lt (fun hlt => h (decide_eq_true hlt))
    have hr_acc : (leastDesc (if descLt w v then w else v) ws).data ≤
        (if descLt w v then w else v).data :=
      ih _ _ (List.mem_cons_self _ _)
    rcases List.mem_cons.1 hx with rfl | hx1
    · exact hr_acc.trans hle_v
    rcases List.mem_cons.1 hx1 with rfl | hx2
    · exact hr_acc.trans hle_w
    · exact ih _ x (List.mem_cons_of_mem _ hx2)

theorem foldrMax_mem (l : List ℕ) (h : l ≠ []) : l.foldr max 0 ∈ l := by
  induction l with
  | nil => exact absurd rfl h
  | cons a l ih =>
    cases l with
    | nil => simp
    | cons b t =>
      rcases max_choice a ((b :: t).foldr max 0) with h1 | h1
      · rw [List.foldr_cons, h1]
        exact List.mem_cons_self _ _
      · rw [List.foldr_cons, h1]
        exact List.mem_cons_of_mem _ (ih (by simp))

theorem exists_maxCount_mem (xs : List String) (h : xs ≠ []) :
    ∃ v ∈ xs, countOcc xs v = maxCount xs := by
  have hmap : xs.map (countOcc xs) ≠ [] := by simpa using h
  have hm := foldrMax_mem _ hmap
  rcases List.mem_map.1 hm with ⟨v, hv, hcount⟩
  exact ⟨v, hv, hcount⟩

theorem modeList_ne_nil (xs : List String) (h : xs ≠ []) :
    modeList xs ≠ [] := by
  rcases exists_maxCount_mem xs h with ⟨v, hv, hc⟩
  exact List.ne_nil_of_mem
    (List.mem_filter.2 ⟨mem_dedupBy_id xs hv, decide_eq_true hc⟩)

theorem modeFirst_least (xs : List String) (h : xs ≠ []) :
    ∃ d, modeFirst xs = some d ∧ d ∈ xs ∧ countOcc xs d = maxCount xs ∧
      ∀ v ∈ xs, countOcc xs v = maxCount xs → d.data ≤ v.data := by
  cases hml : modeList xs with
  | nil => exact absurd hml (modeList_ne_nil xs h)
  | cons m ms =>
    have hd_mem_mode : leastDesc m ms ∈ modeList xs := hml ▸ leastDesc_mem m ms
    have hd_parts := List.mem_filter.1 hd_mem_mode
    refine ⟨leastDesc m ms, by rw [modeFirst, hml], mem_of_mem_dedupBy hd_parts.1,
      of_decide_eq_true hd_parts.2, ?_⟩
    intro v hv hvc
    have hv_mode : v ∈ modeList xs :=
      List.mem_filter.2 ⟨mem_dedupBy_id xs hv, decide_eq_true hvc⟩
    exact leastDesc_le m ms v (hml ▸ hv_mode)

theorem lookup_map_self {β : Type} (f : String → β) (ks : List String)
    (c : String) (hc : c ∈ ks) :
    (ks.map (fun k => (k, f k))).lookup c = some (f c) := by
  induction ks with
  | nil => cases hc
  | cons k ks ih =>
    rw [List.map_cons]
    by_cases h : c = k
    · subst h
      simp [List.lookup]
    · rw [List.lookup]
      have hbeq : (c == k) = false := by
        simpa using h
      rw [hbeq]
      exact ih (List.mem_of_ne_of_mem h hc)

/-- C4 (counterexample): a stock code observed with the two equally
frequent descriptions ("b") (first) then ("a") is recorded with description
"a" — the lexicographically least mode — while the claim's first-seen
tie-break demands ("b"). -/
theorem C4_counterexample :
    transform_product_dimension
        [exStaging ("S") (some ("b")), exStaging ("S") (some ("a"))] = [("S", some ("a"))] ∧
    spec_product_description
        (group_descriptions [exStaging ("S") (some ("b")), exStaging ("S") (some ("a"))] ("S")) =
      some ("b") ∧
    (some ("a") : Option String) ≠ some ("b") := by
  refine ⟨?_, ?_, by simp⟩
  · simp [transform_product_dimension, stock_codes, firstSeen, dedupBy, exStaging,
      group_descriptions, product_description, modeFirst, modeList, countOcc,
      maxCount, leastDesc, descLt]
    decide
  · simp [group_descriptions, exStaging, spec_product_description, firstSeen,
      dedupBy, countOcc, maxCount]

/-- C4 (amended): for every stock code in the staging data the product
dimension records the statistical mode of the code's observed
descriptions; when several descriptions tie for most frequent, the
lexicographically smallest one is chosen (pandas `mode()` sorts, so
`.iloc[0]` is the least mode), not the first-seen one; a code with no
non-null description falls back to its first observed value. -/
theorem C4_description_is_least_mode :
    (∀ (df : List StagingRow) (code : String),
      code ∈ df.map (fun r => r.stock_code) →
      (transform_product_dimension df).lookup code =
        some (product_description (group_descriptions df code))) ∧
    (∀ descs : List (Option String), descs.filterMap id ≠ [] →
      ∃ d, product_description descs = some d ∧ d ∈ descs.filterMap id ∧
        countOcc (descs.filterMap id) d = maxCount (descs.filterMap id) ∧
        ∀ v ∈ descs.filterMap id,
          countOcc (descs.filterMap id) v = maxCount (descs.filterMap id) →
            d.data ≤ v.data) ∧
    (∀ descs : List (Option String), descs.filterMap id = [] →
      product_description descs = descs.headD none) := by
  refine ⟨?_, ?_, ?_⟩
  · intro df code hc
    rw [transform_product_dimension]
    exact lookup_map_self _ _ _ (mem_dedupBy_id _ hc)
  · intro descs h
    rcases modeFirst_least (descs.filterMap id) h with ⟨d, hmf, hmem, hcount, hleast⟩
    exact ⟨d, by rw [product_description, hmf], hmem, hcount, hleast⟩
  · intro descs h
    simp [product_description, h, modeFirst, modeList, firstSeen, dedupBy]

/-- C4 (witness): the amended theorem at the concrete tied group. -/
theorem C4_witness :
    (transform_product_dimension
        [exStaging ("S") (some ("b")), exStaging ("S") (some ("a"))]).lookup ("S") =
      some (product_description
        (group_descriptions [exStaging ("S") (some ("b")), exStaging ("S") (some ("a"))] ("S"))) ∧
    ∃ d, product_description [some ("b"), some ("a")] = some d ∧
      d ∈ ([some ("b"), some ("a")] : List (Option String)).filterMap id ∧
      countOcc (([some ("b"), some ("a")] : List (Option String)).filterMap id) d =
        maxCount (([some ("b"), some ("a")] : List (Option String)).filterMap id) ∧
      ∀ v ∈ ([some ("b"), some ("a")] : List (Option String)).filterMap id,
        countOcc (([some ("b"), some ("a")] : List (Option String)).filterMap id) v =
          maxCount (([some ("b"), some ("a")] : List (Option String)).filterMap id) →
          d.data ≤ v.data :=
  ⟨C4_description_is_least_mode.1 _ ("S") (by simp [exStaging]),
   C4_description_is_least_mode.2.1 [some ("b"), some ("a")] (by simp)⟩

/-! ## C5: IQR outlier detection on daily sales -/

/-- C5: the anomaly scorer's bounds are `Q1 - 1.5*IQR` and
`Q3 + 1.5*IQR` over the full series, each day is tagged Low (below the
lower bound), High (above the upper bound) or Normal, outlier days score
85 and normal days 100; on the series `[10,12,11,13,9,100]` the day with
value 100 is tagged High and the other five Normal. -/
theorem C5_iqr_outlier_scoring :
    (∀ s : List ℚ, lower_bound s =
      quantile s (1/4) - 3/2 * (quantile s (3/4) - quantile s (1/4))) ∧
    (∀ s : List ℚ, upper_bound s =
      quantile s (3/4) + 3/2 * (quantile s (3/4) - quantile s (1/4))) ∧
    (∀ (s : List ℚ) (v : ℚ),
      (outlier_type s v = OutlierType.Low ↔ v < lower_bound s) ∧
      (outlier_type s v = OutlierType.High ↔
        lower_bound s ≤ v ∧ upper_bound s < v) ∧
      (outlier_type s v = OutlierType.Normal ↔
        lower_bound s ≤ v ∧ v ≤ upper_bound s)) ∧
    (∀ (s : List ℚ) (v : ℚ),
      (sales_quality_score s v = 85 ↔ v < lower_bound s ∨ upper_bound s < v) ∧
      (sales_quality_score s v = 100 ↔
        lower_bound s ≤ v ∧ v ≤ upper_bound s)) ∧
    check_daily_sales_range [10, 12, 11, 13, 9, 100] =
      [(10, OutlierType.Normal, 100), (12, OutlierType.Normal, 100),
       (11, OutlierType.Normal, 100), (13, OutlierType.Normal, 100),
       (9, OutlierType.Normal, 100), (100, OutlierType.High, 85)] := by
  refine ⟨fun s => by rw [lower_bound, iqrOf],
    fun s => by rw [upper_bound, iqrOf], ?_, ?_, ?_⟩
  · intro s v
    by_cases h1 : v < lower_bound s
    · simp [outlier_type, h1, not_le.2 h1]
    · by_cases h2 : v > upper_bound s
      · simp [outlier_type, h1, h2, not_lt.1 h1, not_le.2 h2]
      · simp [outlier_type, h1, h2, not_lt.1 h1, not_lt.1 h2]
  · intro s v
    by_cases h1 : v < lower_bound s
    · simp [sales_quality_score, is_outlier, h1, not_le.2 h1]
    · by_cases h2 : v > upper_bound s
      · simp [sales_quality_score, is_outlier, h1, h2, not_le.2 h2]
      · simp [sales_quality_score, is_outlier, h1, h2, not_lt.1 h1, not_lt.1 h2]
  · have hq1 : quantile [10, 12, 11, 13, 9, 100] (1/4) = 41/4 := by
      norm_num [quantile, sortRats, sortedInsert, nth0]
    have hq3 : quantile [10, 12, 11, 13, 9, 100] (3/4) = 51/4 := by
      norm_num [quantile, sortRats, sortedInsert, nth0]
    have hlow : lower_bound [10, 12, 11, 13, 9, 100] = 13/2 := by
      rw [lower_bound, iqrOf, hq1, hq3]; norm_num
    have hup : upper_bound [10, 12, 11, 13, 9, 100] = 33/2 := by
      rw [upper_bound, iqrOf, hq1, hq3]; norm_num
    simp [check_daily_sales_range, outlier_type, sales_quality_score, is_outlier,
      hlow, hup]
    norm_num

/-! ## C6: missing-customer rate scoring -/

/-- C6: the missing-customer check assigns status Good when the rate is
at most 5, Warning when it is in (5, 10], Critical above 10; the score
is 100 up to the threshold and `max 50 (100 - (x - 5) * 10)` beyond it;
a date with 100 transactions and 6 missing customer keys gets rate 6.00,
status Warning and score 90. -/
theorem C6_missing_customer_scoring :
    (∀ x : ℚ, (missing_status x = "Good" ↔ x ≤ 5) ∧
      (missing_status x = "Warning" ↔ 5 < x ∧ x ≤ 10) ∧
      (missing_status x = "Critical" ↔ 10 < x)) ∧
    (∀ x : ℚ, x ≤ 5 → missing_score x = 100) ∧
    (∀ x : ℚ, 5 < x → missing_score x = max 50 (100 - (x - 5) * 10)) ∧
    missing_customer_rate 6 100 = 6 ∧
    missing_status (missing_customer_rate 6 100) = "Warning" ∧
    missing_score (missing_customer_rate 6 100) = 90 := by
  have hrate : missing_customer_rate 6 100 = 6 := by
    norm_num [missing_customer_rate, sqlRound2, round_eq]
  have hten : missingThreshold * 2 = 10 := by norm_num [missingThreshold]
  refine ⟨?_, ?_, ?_, hrate, ?_, ?_⟩
  · intro x
    by_cases h1 : x ≤ 5
    · have h10 : ¬ 10 < x := not_lt.2 (h1.trans (by norm_num))
      simp [missing_status, missingThreshold, hten, h1, not_lt.2 h1, h10]
    · by_cases h2 : x ≤ 10
      · simp [missing_status, missingThreshold, (show (5:ℚ) * 2 = 10 by norm_num),
          h1, h2, not_le.1 h1, not_lt.2 h2]
      · simp [missing_status, missingThreshold, (show (5:ℚ) * 2 = 10 by norm_num),
          h1, h2, not_le.1 h2]
  · intro x h
    simp [missing_score, missingThreshold, h]
  · intro x h
    simp [missing_score, missingThreshold, not_le.2 h]
  · rw [hrate]
    simp [missing_status, missingThreshold]
    norm_num
  · rw [hrate]
    norm_num [missing_score, missingThreshold]

/-- C6 (witness): the scoring branches of the theorem at the concrete
rates 6 (over threshold) and 4 (under threshold). -/
theorem C6_witness :
    missing_score 6 = max 50 (100 - ((6 : ℚ) - 5) * 10) ∧ missing_score 4 = 100 :=
  ⟨C6_missing_customer_scoring.2.2.1 6 (by norm_num),
   C6_missing_customer_scoring.2.1 4 (by norm_num)⟩

/-! ## C7: row-count validation and the aggregate status -/

theorem run_quality_check_name (execQ : Check → Except String QueryRow)
    (c : Check) : (run_quality_check execQ c).check_name = c.name := by
  cases hq : execQ c <;> simp [run_quality_check, hq]

theorem run_quality_check_critical (execQ : Check → Except String QueryRow)
    (c : Check) : (run_quality_check execQ c).critical = c.critical := by
  cases hq : execQ c <;> simp [run_quality_check, hq]

theorem overall_critical_of_failed_critical
    (execQ : Check → Except String QueryRow)
    (rules : List (String × List Check)) (cat : String) (cs : List Check)
    (c : Check) (h1 : (cat, cs) ∈ rules) (h2 : c ∈ cs)
    (h3 : (run_quality_check execQ c).passed = false)
    (h4 : c.critical = true) :
    (run_all_checks execQ rules).overall_status = "CRITICAL_FAILURE" := by
  have hr_mem : run_quality_check execQ c ∈
      ((rules.map (fun p => (p.1, p.2.map (run_quality_check execQ)))).map
        (fun p => p.2)).flatten := by
    rw [List.mem_flatten]
    refine ⟨cs.map (run_quality_check execQ), ?_, List.mem_map_of_mem _ h2⟩
    exact List.mem_map_of_mem (fun p => p.2)
      (List.mem_map_of_mem (fun p => (p.1, p.2.map (run_quality_check execQ))) h1)
  have hpred : (!(run_quality_check execQ c).passed &&
      (run_quality_check execQ c).critical) = true := by
    rw [h3, run_quality_check_critical, h4]
    rfl
  have hpos : 0 < (((rules.map (fun p => (p.1, p.2.map (run_quality_check execQ)))).map
      (fun p => p.2)).flatten.filter
        (fun r => !r.passed && r.critical)).length :=
    List.length_pos_of_mem (List.mem_filter.2 ⟨hr_mem, hpred⟩)
  simp only [run_all_checks]
  rw [if_pos hpos]

/-- C7: the row-count-validation check passes exactly when
`fact_count / raw_count ≥ 0.95` (for a positive raw count); on
`raw_count = 1000, fact_count = 940` it fails, and because the check is
critical in `quality_rules`, the report's overall status is
CRITICAL_FAILURE. -/
theorem C7_row_count_validation :
    (∀ row : QueryRow, 0 < rowGetD row ("raw_count") 0 →
      (evaluate_check_result row_count_check row = true ↔
        rowGetD row ("fact_count") 0 / rowGetD row ("raw_count") 0 ≥ 95/100)) ∧
    evaluate_check_result row_count_check
      [("raw_count", 1000), ("fact_count", 940)] = false ∧
    (∀ execQ : Check → Except String QueryRow,
      execQ row_count_check = Except.ok [("raw_count", 1000), ("fact_count", 940)] →
      (run_all_checks execQ quality_rules).overall_status = "CRITICAL_FAILURE") := by
  refine ⟨?_, ?_, ?_⟩
  · intro row hpos
    have hne : ¬ rowGetD row ("raw_count") 0 = 0 := ne_of_gt hpos
    simp [evaluate_check_result, row_count_check, hne]
  · simp [evaluate_check_result, row_count_check, rowGetD, List.lookup]
    norm_num
  · intro execQ hq
    refine overall_critical_of_failed_critical execQ quality_rules
      ("performance_checks") [data_freshness_check, row_count_check]
      row_count_check ?_ ?_ ?_ rfl
    · simp [quality_rules]
    · simp [quality_rules]
    · rw [run_quality_check, hq]
      simp [evaluate_check_result, row_count_check, rowGetD, List.lookup]
      norm_num

/-- C7 (witness): the theorem at the concrete execution answering
`raw_count = 1000, fact_count = 940`, and the pass criterion at a
passing row. -/
theorem C7_witness :
    (run_all_checks exExec940 quality_rules).overall_status = "CRITICAL_FAILURE" ∧
    (evaluate_check_result row_count_check [("raw_count", 4), ("fact_count", 4)] = true ↔
      (4 : ℚ) / 4 ≥ 95/100) := by
  constructor
  · exact C7_row_count_validation.2.2 exExec940 rfl
  · have h := C7_row_count_validation.1 [("raw_count", 4), ("fact_count", 4)]
      (by norm_num [rowGetD, List.lookup])
    simpa [rowGetD, List.lookup] using h

/-! ## C8: failing checks are recorded, the batch continues -/

/-- C8: a quality check whose query raises is recorded as a failed
result carrying the check name, the critical flag and the error message;
and `run_all_checks` always produces one result per configured check in
every category, whatever the execution outcomes — an exception never
aborts the batch. -/
theorem C8_error_recorded_batch_continues :
    (∀ (execQ : Check → Except String QueryRow) (c : Check) (e : String),
      execQ c = Except.error e →
      run_quality_check execQ c =
        { check_name := c.name, description := c.description, results := [],
          passed := false, critical := c.critical, threshold := none,
          error := some e }) ∧
    (∀ (execQ : Check → Except String QueryRow)
      (rules : List (String × List Check)),
      (run_all_checks execQ rules).check_categories.map
          (fun p => (p.1, p.2.map (fun r => r.check_name))) =
        rules.map (fun p => (p.1, p.2.map (fun c => c.name)))) := by
  constructor
  · intro execQ c e h
    rw [run_quality_check, h]
  · intro execQ rules
    have hname : (fun c => (run_quality_check execQ c).check_name) =
        (fun c : Check => c.name) :=
      funext (run_quality_check_name execQ)
    simp only [run_all_checks, List.map_map]
    refine List.map_congr_left ?_
    intro p _
    simp only [Function.comp]
    rw [List.map_map, Function.comp_def, hname]

/-- C8 (witness): the theorem at the always-raising execution. -/
theorem C8_witness :
    run_quality_check exExecFail row_count_check =
      { check_name := row_count_check.name
        description := row_count_check.description
        results := []
        passed := false
        critical := row_count_check.critical
        threshold := none
        error := some ("connection refused") } ∧
    (run_all_checks exExecFail quality_rules).check_categories.map
        (fun p => (p.1, p.2.map (fun r => r.check_name))) =
      quality_rules.map (fun p => (p.1, p.2.map (fun c => c.name))) :=
  ⟨C8_error_recorded_batch_continues.1 exExecFail row_count_check
      ("connection refused") rfl,
   C8_error_recorded_batch_continues.2 exExecFail quality_rules⟩

end RetailETL
